import Mathlib

/-!
Verification of the task-state synchronization core of a video-download
client (frontend of `hanime1-downloader`).

The embedding follows the TypeScript sources:
- `frontend/src/store/task-store.ts` — the zustand Task Store
  (`setTasks`, `updateTask`, `removeTask`, `updateProgress`);
- `frontend/src/hooks/use-websocket.ts` — the live-update channel message
  handler and its reconnect logic;
- `frontend/src/hooks/use-tasks.ts` — the poller and the delete mutation;
- `frontend/src/components/download/task-list.tsx` — the display ordering;
- `frontend/src/hooks/use-bulk-urls.ts` and
  `frontend/src/components/download/task-card.tsx` — the bulk-import
  pipeline (`validateVideoUrl`, `parseUrls`, `useBulkUrls`,
  `BulkUrlsSection`).

Conventions of the embedding:
- The Store's state is the plain list `tasks : List DownloadTask`; each
  zustand action becomes a function `List DownloadTask → List DownloadTask`.
- TypeScript strings become `String`, numbers become `Int` (no fractional
  progress value is needed by any claim).
- `DownloadTask.status` is kept as a `String`: the source writes
  `status: progress.status as any`, so at runtime the field holds whatever
  string the message carried, not necessarily one of the five
  `TaskStatus` literals.
-/

/-- `TaskStatus` from `types/api.ts`:
`'pending' | 'downloading' | 'completed' | 'failed' | 'cancelled'`.
Runtime values are strings; this predicate recognises the five literals. -/
def isTaskStatus (s : String) : Bool :=
  s = "pending" || s = "downloading" || s = "completed" ||
    s = "failed" || s = "cancelled"

/-- The terminal statuses of the lifecycle `pending → downloading →
\x7bcompleted, failed, cancelled\x7d`. -/
def isTerminalStatus (s : String) : Bool :=
  s = "completed" || s = "failed" || s = "cancelled"

/-- `DownloadTask` from `types/api.ts`. -/
structure DownloadTask where
  id : String
  title : String
  page_url : String
  video_url : String
  thumbnail_url : String
  resolution : String
  status : String
  progress : Int
  downloaded_bytes : Int
  total_bytes : Int
  speed : Int
  error_message : String
  created_at : String
  completed_at : String
  save_dir : String
deriving DecidableEq, Repr

/-- `ProgressMessage` from `types/api.ts`. -/
structure ProgressMessage where
  task_id : String
  progress : Int
  downloaded : Int
  total : Int
  speed : Int
  status : String
deriving DecidableEq, Repr

/-- `setTasks: (tasks) => set(\x7b tasks \x7d)` — the Store action behind
`replaceAll`: the new state ignores the previous one. -/
def setTasks (tasks : List DownloadTask) (_state : List DownloadTask) :
    List DownloadTask :=
  tasks

/-- The record update performed inside `updateProgress` on the matching
task: `\x7b ...task, progress, downloaded_bytes, total_bytes, speed,
status \x7d`. -/
def patchTask (task : DownloadTask) (m : ProgressMessage) : DownloadTask :=
  { task with
    progress := m.progress
    downloaded_bytes := m.downloaded
    total_bytes := m.total
    speed := m.speed
    status := m.status }

/-- `updateProgress: (progress) => set(...)` — maps over the task list and
patches every task whose `id` equals `progress.task_id`. -/
def updateProgress (m : ProgressMessage) (state : List DownloadTask) :
    List DownloadTask :=
  state.map fun task => if task.id = m.task_id then patchTask task m else task

/-- `removeTask: (taskId) => set(...)` — filters out the task with the
given id. -/
def removeTask (taskId : String) (state : List DownloadTask) :
    List DownloadTask :=
  state.filter fun task => task.id ≠ taskId

/-- `updateTask: (taskId, updates) => set(...)` modelled with an explicit
update function standing for the spread `\x7b ...task, ...updates \x7d`. -/
def updateTask (taskId : String) (updates : DownloadTask → DownloadTask)
    (state : List DownloadTask) : List DownloadTask :=
  state.map fun task => if task.id = taskId then updates task else task

/-- Folding a sequence of `replaceAll` calls over an initial Store state:
each element of `calls` is the task list passed to one `setTasks` call,
applied in order. -/
def runReplaceAlls (init : List DownloadTask)
    (calls : List (List DownloadTask)) : List DownloadTask :=
  calls.foldl (fun state ts => setTasks ts state) init

/-- A fixed sample task used by concrete witnesses below. -/
def sampleTask : DownloadTask :=
  { id := "t1"
    title := "Sample video"
    page_url := "https://hanime1.me/watch?v=1"
    video_url := "https://cdn.example/v1.mp4"
    thumbnail_url := "https://cdn.example/v1.jpg"
    resolution := "720p"
    status := "downloading"
    progress := 10
    downloaded_bytes := 100
    total_bytes := 1000
    speed := 7
    error_message := ""
    created_at := "2024-01-01T00:00:00Z"
    completed_at := ""
    save_dir := "/downloads" }

/-- A second sample task with a different id. -/
def sampleTask2 : DownloadTask :=
  { sampleTask with id := "t2", title := "Other video", status := "pending" }

/-- A sample delta addressed to `sampleTask`. -/
def sampleMsg : ProgressMessage :=
  { task_id := "t1", progress := 55, downloaded := 550, total := 1000
    speed := 9, status := "downloading" }

/-- Any sequence of `replaceAll` calls ends in the last call's input (or
the initial state when there was no call at all). -/
theorem runReplaceAlls_eq_getLast (init : List DownloadTask)
    (calls : List (List DownloadTask)) :
    runReplaceAlls init calls = calls.getLast?.getD init := by
  induction calls generalizing init with
  | nil => rfl
  | cons c rest ih =>
    cases rest with
    | nil => rfl
    | cons d rest2 =>
      calc runReplaceAlls init (c :: d :: rest2)
          = runReplaceAlls c (d :: rest2) := rfl
        _ = (d :: rest2).getLast?.getD c := ih c
        _ = (c :: d :: rest2).getLast?.getD init := by
            rw [List.getLast?_cons_cons]
            cases h : (d :: rest2).getLast? with
            | none => simp at h
            | some x => rfl

/-- C1: `replaceAll` (`setTasks`) makes the Store's contents exactly the
input list — every task of the input is present, nothing else is retained,
regardless of the prior state — and for every non-empty sequence of
`replaceAll` calls the final contents equal the last call's input. -/
theorem setTasks_replaces_all (ts prior : List DownloadTask)
    (calls : List (List DownloadTask)) (init : List DownloadTask)
    (hne : calls ≠ []) :
    setTasks ts prior = ts ∧
      (∀ t : DownloadTask, t ∈ setTasks ts prior ↔ t ∈ ts) ∧
      runReplaceAlls init calls = calls.getLast hne := by
  refine ⟨rfl, fun t => Iff.rfl, ?_⟩
  rw [runReplaceAlls_eq_getLast, List.getLast?_eq_getLast calls hne]
  rfl

/-- Witness for C1 at concrete inputs. -/
theorem setTasks_replaces_all_witness :
    setTasks [sampleTask] [sampleTask2] = [sampleTask] ∧
      (∀ t : DownloadTask, t ∈ setTasks [sampleTask] [sampleTask2] ↔
        t ∈ [sampleTask]) ∧
      runReplaceAlls [] [[sampleTask2], [sampleTask]] =
        [[sampleTask2], [sampleTask]].getLast (by simp) :=
  setTasks_replaces_all [sampleTask] [sampleTask2]
    [[sampleTask2], [sampleTask]] [] (by simp)

/-- The task at position `i` after `updateProgress`: patched when its id
matches the delta's `task_id`, untouched otherwise. -/
theorem updateProgress_get (m : ProgressMessage) (state : List DownloadTask)
    (i : Nat) (hi : i < state.length)
    (hj : i < (updateProgress m state).length) :
    (updateProgress m state).get ⟨i, hj⟩ =
      if (state.get ⟨i, hi⟩).id = m.task_id
      then patchTask (state.get ⟨i, hi⟩) m else state.get ⟨i, hi⟩ := by
  simp only [updateProgress, List.get_eq_getElem, List.getElem_map]

/-- C2: a delta addressed to a task present in the Store overwrites only
that task's `progress`, `downloaded_bytes`, `total_bytes`, `speed` and
`status`; its other ten fields and every task with a different id are left
exactly unchanged (stated position by position over the Store). -/
theorem updateProgress_frame (m : ProgressMessage)
    (state : List DownloadTask) (i : Nat) (hi : i < state.length) :
    (updateProgress m state).length = state.length ∧
      ∀ hj : i < (updateProgress m state).length,
        ((state.get ⟨i, hi⟩).id ≠ m.task_id →
          (updateProgress m state).get ⟨i, hj⟩ = state.get ⟨i, hi⟩) ∧
        ((state.get ⟨i, hi⟩).id = m.task_id →
          ((updateProgress m state).get ⟨i, hj⟩).progress = m.progress ∧
          ((updateProgress m state).get ⟨i, hj⟩).downloaded_bytes =
            m.downloaded ∧
          ((updateProgress m state).get ⟨i, hj⟩).total_bytes = m.total ∧
          ((updateProgress m state).get ⟨i, hj⟩).speed = m.speed ∧
          ((updateProgress m state).get ⟨i, hj⟩).status = m.status ∧
          ((updateProgress m state).get ⟨i, hj⟩).id =
            (state.get ⟨i, hi⟩).id ∧
          ((updateProgress m state).get ⟨i, hj⟩).title =
            (state.get ⟨i, hi⟩).title ∧
          ((updateProgress m state).get ⟨i, hj⟩).page_url =
            (state.get ⟨i, hi⟩).page_url ∧
          ((updateProgress m state).get ⟨i, hj⟩).video_url =
            (state.get ⟨i, hi⟩).video_url ∧
          ((updateProgress m state).get ⟨i, hj⟩).thumbnail_url =
            (state.get ⟨i, hi⟩).thumbnail_url ∧
          ((updateProgress m state).get ⟨i, hj⟩).resolution =
            (state.get ⟨i, hi⟩).resolution ∧
          ((updateProgress m state).get ⟨i, hj⟩).save_dir =
            (state.get ⟨i, hi⟩).save_dir ∧
          ((updateProgress m state).get ⟨i, hj⟩).error_message =
            (state.get ⟨i, hi⟩).error_message ∧
          ((updateProgress m state).get ⟨i, hj⟩).created_at =
            (state.get ⟨i, hi⟩).created_at ∧
          ((updateProgress m state).get ⟨i, hj⟩).completed_at =
            (state.get ⟨i, hi⟩).completed_at) := by
  constructor
  · simp [updateProgress]
  · intro hj
    have hget := updateProgress_get m state i hi hj
    constructor
    · intro hne
      rw [hget, if_neg hne]
    · intro heq
      rw [hget, if_pos heq]
      simp [patchTask]

/-- Witness for C2 at a concrete two-task Store. -/
theorem updateProgress_frame_witness :
    (updateProgress sampleMsg [sampleTask, sampleTask2]).length =
        [sampleTask, sampleTask2].length ∧
      ∀ hj : 0 < (updateProgress sampleMsg [sampleTask, sampleTask2]).length,
        ((([sampleTask, sampleTask2]).get ⟨0, by simp⟩).id ≠
            sampleMsg.task_id →
          (updateProgress sampleMsg [sampleTask, sampleTask2]).get ⟨0, hj⟩ =
            ([sampleTask, sampleTask2]).get ⟨0, by simp⟩) ∧
        ((([sampleTask, sampleTask2]).get ⟨0, by simp⟩).id =
            sampleMsg.task_id →
          ((updateProgress sampleMsg [sampleTask, sampleTask2]).get
              ⟨0, hj⟩).progress = sampleMsg.progress ∧
          ((updateProgress sampleMsg [sampleTask, sampleTask2]).get
              ⟨0, hj⟩).downloaded_bytes = sampleMsg.downloaded ∧
          ((updateProgress sampleMsg [sampleTask, sampleTask2]).get
              ⟨0, hj⟩).total_bytes = sampleMsg.total ∧
          ((updateProgress sampleMsg [sampleTask, sampleTask2]).get
              ⟨0, hj⟩).speed = sampleMsg.speed ∧
          ((updateProgress sampleMsg [sampleTask, sampleTask2]).get
              ⟨0, hj⟩).status = sampleMsg.status ∧
          ((updateProgress sampleMsg [sampleTask, sampleTask2]).get
              ⟨0, hj⟩).id = (([sampleTask, sampleTask2]).get ⟨0, by simp⟩).id ∧
          ((updateProgress sampleMsg [sampleTask, sampleTask2]).get
              ⟨0, hj⟩).title =
            (([sampleTask, sampleTask2]).get ⟨0, by simp⟩).title ∧
          ((updateProgress sampleMsg [sampleTask, sampleTask2]).get
              ⟨0, hj⟩).page_url =
            (([sampleTask, sampleTask2]).get ⟨0, by simp⟩).page_url ∧
          ((updateProgress sampleMsg [sampleTask, sampleTask2]).get
              ⟨0, hj⟩).video_url =
            (([sampleTask, sampleTask2]).get ⟨0, by simp⟩).video_url ∧
          ((updateProgress sampleMsg [sampleTask, sampleTask2]).get
              ⟨0, hj⟩).thumbnail_url =
            (([sampleTask, sampleTask2]).get ⟨0, by simp⟩).thumbnail_url ∧
          ((updateProgress sampleMsg [sampleTask, sampleTask2]).get
              ⟨0, hj⟩).resolution =
            (([sampleTask, sampleTask2]).get ⟨0, by simp⟩).resolution ∧
          ((updateProgress sampleMsg [sampleTask, sampleTask2]).get
              ⟨0, hj⟩).save_dir =
            (([sampleTask, sampleTask2]).get ⟨0, by simp⟩).save_dir ∧
          ((updateProgress sampleMsg [sampleTask, sampleTask2]).get
              ⟨0, hj⟩).error_message =
            (([sampleTask, sampleTask2]).get ⟨0, by simp⟩).error_message ∧
          ((updateProgress sampleMsg [sampleTask, sampleTask2]).get
              ⟨0, hj⟩).created_at =
            (([sampleTask, sampleTask2]).get ⟨0, by simp⟩).created_at ∧
          ((updateProgress sampleMsg [sampleTask, sampleTask2]).get
              ⟨0, hj⟩).completed_at =
            (([sampleTask, sampleTask2]).get ⟨0, by simp⟩).completed_at) :=
  updateProgress_frame sampleMsg [sampleTask, sampleTask2] 0 (by simp)

/-- C3: a delta whose `task_id` matches no task in the Store leaves the
Store exactly unchanged — nothing is created from the partial message. -/
theorem updateProgress_unknown_id_dropped (m : ProgressMessage)
    (state : List DownloadTask)
    (habs : ∀ t ∈ state, t.id ≠ m.task_id) :
    updateProgress m state = state := by
  unfold updateProgress
  induction state with
  | nil => rfl
  | cons t rest ih =>
    have ht : t.id ≠ m.task_id := habs t (List.mem_cons_self t rest)
    have hrest : ∀ u ∈ rest, u.id ≠ m.task_id := fun u hu =>
      habs u (List.mem_cons_of_mem t hu)
    simpa [ht] using ih hrest

/-- Witness for C3: a delta for an unknown id over a one-task Store. -/
theorem updateProgress_unknown_id_dropped_witness :
    updateProgress { sampleMsg with task_id := "ghost" } [sampleTask] =
      [sampleTask] :=
  updateProgress_unknown_id_dropped { sampleMsg with task_id := "ghost" }
    [sampleTask] (by intro t ht; simp at ht; subst ht; decide)

/-- A completed task: terminal status. -/
def completedTask : DownloadTask :=
  { sampleTask with id := "done1", status := "completed", progress := 100 }

/-- A delta addressed to `completedTask` that carries a non-terminal
status, as the push channel may deliver after a reconnect. -/
def regressMsg : ProgressMessage :=
  { task_id := "done1", progress := 40, downloaded := 400, total := 1000
    speed := 5, status := "downloading" }

/-- C5 counterexample: the Store does not protect terminal states. A task
with terminal status `"completed"` receives a delta carrying status
`"downloading"`, and `updateProgress` moves it to that non-terminal
status. -/
theorem updateProgress_leaves_terminal_counterexample :
    isTerminalStatus completedTask.status = true ∧
      (updateProgress regressMsg [completedTask]).map DownloadTask.status =
        ["downloading"] ∧
      isTerminalStatus "downloading" = false := by
  refine ⟨rfl, ?_, rfl⟩
  decide

/-- C5 amended: `updateProgress` overwrites the matched task's `status`
with the message's `status` unconditionally — the Store has no terminal
guard — so a terminal task remains terminal exactly when the delta
addressed to it itself carries a terminal status. -/
theorem updateProgress_status_unconditional (m : ProgressMessage)
    (state : List DownloadTask) (i : Nat) (hi : i < state.length)
    (hmatch : (state.get ⟨i, hi⟩).id = m.task_id) :
    ∀ hj : i < (updateProgress m state).length,
      ((updateProgress m state).get ⟨i, hj⟩).status = m.status ∧
      (isTerminalStatus m.status = true →
        isTerminalStatus ((updateProgress m state).get ⟨i, hj⟩).status =
          true) := by
  intro hj
  have hget := updateProgress_get m state i hi hj
  rw [hget, if_pos hmatch]
  exact ⟨rfl, fun h => h⟩

/-- Witness for the amended C5: a delta with terminal status `"failed"`
hits `completedTask` and the task's status becomes exactly the message's
status. -/
theorem updateProgress_status_unconditional_witness :
    ((updateProgress { regressMsg with status := "failed" }
        [completedTask]).get ⟨0, by decide⟩).status = "failed" ∧
      isTerminalStatus
        ((updateProgress { regressMsg with status := "failed" }
            [completedTask]).get ⟨0, by decide⟩).status = true := by
  have h := updateProgress_status_unconditional
    { regressMsg with status := "failed" } [completedTask] 0 (by simp)
    (by decide) (by decide)
  exact ⟨h.1, h.2 (by decide)⟩

/-- The fixed reconnect delay from `use-websocket.ts`:
`setTimeout(connect, 3000)`. -/
def reconnectDelayMs : Nat := 3000

/-- The `onclose` handler: from a close at time `closeTime` it always
schedules the next `connect` call — it returns a scheduled time for every
close, with no branch that gives up. -/
def wsOnCloseSchedule (closeTime : Nat) : Nat :=
  closeTime + reconnectDelayMs

/-- The start time of the `n`-th connection attempt, when attempt `k`
stays up for `connectedDuration k` milliseconds before its close event:
attempt `0` starts at time `0` (the initial `connect()`), and every later
attempt starts when the timer scheduled by the previous close fires. -/
def reconnectAttemptTime (connectedDuration : Nat → Nat) : Nat → Nat
  | 0 => 0
  | n + 1 =>
      wsOnCloseSchedule
        (reconnectAttemptTime connectedDuration n + connectedDuration n)

/-- C9: after every disconnect — whatever the attempt number `n` and
however long each earlier connection lasted — the next connection attempt
is scheduled exactly `reconnectDelayMs = 3000` ms after the close: the
delay never grows with `n`, and the attempt sequence is defined and
strictly increasing for every `n`, so no attempt cap exists. -/
theorem reconnect_fixed_delay_no_cap (connectedDuration : Nat → Nat)
    (n : Nat) :
    reconnectAttemptTime connectedDuration (n + 1) =
        (reconnectAttemptTime connectedDuration n + connectedDuration n) +
          3000 ∧
      reconnectDelayMs = 3000 ∧
      reconnectAttemptTime connectedDuration n <
        reconnectAttemptTime connectedDuration (n + 1) := by
  refine ⟨rfl, rfl, ?_⟩
  show reconnectAttemptTime connectedDuration n <
    (reconnectAttemptTime connectedDuration n + connectedDuration n) +
      reconnectDelayMs
  unfold reconnectDelayMs
  omega

/-- The delete flow of `useDeleteTask`: the remote `DELETE /tasks/{id}`
call runs first; only its `onSuccess` continuation calls
`removeTask(taskId)`. On a failed call no Store mutation happens. -/
def deleteTaskFlow (backendOk : Bool) (taskId : String)
    (state : List DownloadTask) : List DownloadTask :=
  if backendOk then removeTask taskId state else state

/-- C10: for every Store state and every deleted id, the Store drops the
task only after the backend confirms the delete, and a failed remote call
leaves the Store exactly unchanged; after a confirmed delete the retained
tasks are exactly those of the old Store whose id differs from the
deleted one; and `removeTask` is idempotent — removing twice equals
removing once, and it is a no-op when the id is absent. -/
theorem deleteTask_confirm_then_remove (taskId : String)
    (state : List DownloadTask) :
    deleteTaskFlow true taskId state = removeTask taskId state ∧
      deleteTaskFlow false taskId state = state ∧
      (∀ t : DownloadTask, t ∈ removeTask taskId state ↔
        t ∈ state ∧ t.id ≠ taskId) ∧
      removeTask taskId (removeTask taskId state) =
        removeTask taskId state ∧
      ((∀ t ∈ state, t.id ≠ taskId) → removeTask taskId state = state) := by
  refine ⟨rfl, rfl, ?_, ?_, ?_⟩
  · intro t
    unfold removeTask
    rw [List.mem_filter]
    simp
  · unfold removeTask
    rw [List.filter_filter]
    simp
  · intro habs
    unfold removeTask
    rw [List.filter_eq_self]
    intro t ht
    simpa using habs t ht

/-- Witness for C10: deleting the present id `"t1"` from a two-task
Store — the backend-confirmed flow really drops `sampleTask` and keeps
`sampleTask2`, the failed flow changes nothing — and, at a second input,
deleting the absent id `"ghost"` is a no-op. -/
theorem deleteTask_confirm_then_remove_witness :
    deleteTaskFlow true "t1" [sampleTask, sampleTask2] =
        removeTask "t1" [sampleTask, sampleTask2] ∧
      removeTask "t1" [sampleTask, sampleTask2] = [sampleTask2] ∧
      deleteTaskFlow false "t1" [sampleTask, sampleTask2] =
        [sampleTask, sampleTask2] ∧
      (∀ t : DownloadTask, t ∈ removeTask "t1" [sampleTask, sampleTask2] ↔
        t ∈ [sampleTask, sampleTask2] ∧ t.id ≠ "t1") ∧
      removeTask "t1" (removeTask "t1" [sampleTask, sampleTask2]) =
        removeTask "t1" [sampleTask, sampleTask2] ∧
      removeTask "ghost" [sampleTask] = [sampleTask] := by
  have h1 := deleteTask_confirm_then_remove "t1" [sampleTask, sampleTask2]
  have h2 := deleteTask_confirm_then_remove "ghost" [sampleTask]
  exact ⟨h1.1, by decide, h1.2.1, h1.2.2.1, h1.2.2.2.1,
    h2.2.2.2.2 (by intro t ht; simp at ht; subst ht; decide)⟩

/-- The priority score from `task-list.tsx`:
`downloading → 2`, `pending → 1`, anything else → `0`. -/
def getScore (status : String) : Int :=
  if status = "downloading" then 2 else if status = "pending" then 1 else 0

/-- The JS comparator of `task-list.tsx` as an order relation:
`a` may stay before `b` exactly when the comparator returns `≤ 0`, i.e.
when `a`'s score is larger, or the scores tie and `a`'s creation time is
at least `b`'s. `getTime` stands for `new Date(s).getTime()`. -/
def taskBefore (getTime : String → Int) (a b : DownloadTask) : Prop :=
  if getScore a.status = getScore b.status
  then getTime b.created_at ≤ getTime a.created_at
  else getScore b.status < getScore a.status

instance (g : String → Int) : DecidableRel (taskBefore g) := fun a b => by
  unfold taskBefore
  infer_instance

/-- `[...tasks].sort(comparator)` — JS `Array.sort` is a stable sort by a
consistent comparator, modelled by insertion sort over `taskBefore`. -/
def sortTasks (getTime : String → Int) (ts : List DownloadTask) :
    List DownloadTask :=
  ts.insertionSort (taskBefore getTime)

/-- Task `A(pending, created_at = 1)` from the ordering example. -/
def taskA : DownloadTask :=
  { sampleTask with id := "A", status := "pending", created_at := "1" }

/-- Task `B(downloading, created_at = 0)` from the ordering example. -/
def taskB : DownloadTask :=
  { sampleTask with id := "B", status := "downloading", created_at := "0" }

/-- Task `C(completed, created_at = 5)` from the ordering example. -/
def taskC : DownloadTask :=
  { sampleTask with id := "C", status := "completed", created_at := "5" }

/-- A concrete timestamp reading for the example's `created_at` values. -/
def exampleGetTime (s : String) : Int :=
  if s = "0" then 0 else if s = "1" then 1 else 5

/-- C6: the display order is a permutation of the Store snapshot, sorted
primarily by priority score descending and, on equal scores, by creation
time descending; on the example tasks `A(pending, t=1)`,
`B(downloading, t=0)`, `C(completed, t=5)` the displayed order is
`B, A, C`. -/
theorem taskList_display_order (g : String → Int) (ts : List DownloadTask) :
    (sortTasks g ts).Perm ts ∧
      List.Sorted
        (fun a b : DownloadTask =>
          getScore b.status < getScore a.status ∨
            (getScore a.status = getScore b.status ∧
              g b.created_at ≤ g a.created_at))
        (sortTasks g ts) ∧
      sortTasks exampleGetTime [taskA, taskB, taskC] =
        [taskB, taskA, taskC] := by
  refine ⟨List.perm_insertionSort (taskBefore g) ts, ?_, by decide⟩
  haveI htot : IsTotal DownloadTask (taskBefore g) := by
    constructor
    intro a b
    unfold taskBefore
    by_cases h : getScore a.status = getScore b.status
    · rw [if_pos h, if_pos h.symm]
      exact le_total (g b.created_at) (g a.created_at)
    · rw [if_neg h, if_neg (fun heq => h heq.symm)]
      exact lt_or_gt_of_ne (fun heq => h heq.symm)
  haveI htrans : IsTrans DownloadTask (taskBefore g) := by
    constructor
    intro a b c hab hbc
    unfold taskBefore at hab hbc ⊢
    split_ifs at hab hbc ⊢ <;> omega
  have hs := List.sorted_insertionSort (taskBefore g) ts
  refine hs.imp ?_
  intro a b hab
  unfold taskBefore at hab
  by_cases h : getScore a.status = getScore b.status
  · rw [if_pos h] at hab
    exact Or.inr ⟨h, hab⟩
  · rw [if_neg h] at hab
    exact Or.inl hab

/-- JSON values as produced by `JSON.parse`. -/
inductive Json where
  | null
  | bool (b : Bool)
  | num (n : Int)
  | str (s : String)
  | arr (elems : List Json)
  | obj (fields : List (String × Json))

/-- Key lookup in a parsed JSON object; with duplicate keys `JSON.parse`
keeps the last occurrence, so later fields shadow earlier ones. -/
def lookupField : List (String × Json) → String → Option Json
  | [], _ => none
  | (k, v) :: rest, key =>
    match lookupField rest key with
    | some w => some w
    | none => if k = key then some v else none

/-- JS property access `value.key`: `none` stands for `undefined`
(non-object values and missing keys). -/
def getProp : Json → String → Option Json
  | Json.obj fields, key => lookupField fields key
  | _, _ => none

/-- JS truthiness of a property value; `none` is `undefined`, hence
falsy, as are `null`, `false`, `0` and the empty string. -/
def jsTruthy : Option Json → Bool
  | none => false
  | some Json.null => false
  | some (Json.bool b) => b
  | some (Json.num n) => decide (n ≠ 0)
  | some (Json.str s) => decide (s ≠ "")
  | some (Json.arr _) => true
  | some (Json.obj _) => true

/-- `typeof v === 'number'` on a property value. -/
def isNumericProp : Option Json → Bool
  | some (Json.num _) => true
  | _ => false

/-- The guard of `ws.onmessage`:
`data.task_id && typeof data.progress === 'number'`. -/
def wsShouldForward (d : Json) : Bool :=
  jsTruthy (getProp d "task_id") && isNumericProp (getProp d "progress")

/-- The payload read as a `ProgressMessage`. The TS cast
`data as ProgressMessage` performs no conversion; this extraction reads
each field when it has the declared runtime type and falls back to a
default for absent or differently-typed fields, which no claim below
depends on. -/
def jsonToProgressMessage (d : Json) : ProgressMessage :=
  { task_id :=
      match getProp d "task_id" with
      | some (Json.str s) => s
      | _ => ""
    progress :=
      match getProp d "progress" with
      | some (Json.num n) => n
      | _ => 0
    downloaded :=
      match getProp d "downloaded" with
      | some (Json.num n) => n
      | _ => 0
    total :=
      match getProp d "total" with
      | some (Json.num n) => n
      | _ => 0
    speed :=
      match getProp d "speed" with
      | some (Json.num n) => n
      | _ => 0
    status :=
      match getProp d "status" with
      | some (Json.str s) => s
      | _ => "" }

/-- The `ws.onmessage` handler's effect on the Store. `none` stands for a
message whose `JSON.parse` threw: the exception is caught, logged and the
handler returns with the Store untouched, so the channel survives. -/
def handleWsMessage (parsed : Option Json) (state : List DownloadTask) :
    List DownloadTask :=
  match parsed with
  | none => state
  | some d =>
      if wsShouldForward d then
        updateProgress (jsonToProgressMessage d) state
      else state

/-- A payload that carries a `task_id` field (the empty string) and a
numeric `progress` field. -/
def wsEdgeMessage : Json :=
  Json.obj [("task_id", Json.str ""), ("progress", Json.num 50)]

/-- C7 counterexample: `wsEdgeMessage` carries a `task_id` and a numeric
`progress`, yet the guard rejects it — the empty string is falsy in JS —
so the message is discarded, not forwarded to `updateProgress`. -/
theorem wsForward_presence_counterexample :
    getProp wsEdgeMessage "task_id" = some (Json.str "") ∧
      getProp wsEdgeMessage "progress" = some (Json.num 50) ∧
      wsShouldForward wsEdgeMessage = false ∧
      handleWsMessage (some wsEdgeMessage) [sampleTask] = [sampleTask] :=
  ⟨rfl, rfl, rfl, rfl⟩

/-- C7 amended: a received message is forwarded to `updateProgress`
exactly when its parsed payload has a truthy `task_id` property and a
numeric `progress` property; every other message — unparseable JSON
included — leaves the Store untouched, and the handler is total (no
message terminates the channel). -/
theorem handleWsMessage_spec (d : Json) (state : List DownloadTask) :
    handleWsMessage none state = state ∧
      (wsShouldForward d = true ↔
        jsTruthy (getProp d "task_id") = true ∧
          ∃ n : Int, getProp d "progress" = some (Json.num n)) ∧
      (wsShouldForward d = false → handleWsMessage (some d) state = state) ∧
      (wsShouldForward d = true →
        handleWsMessage (some d) state =
          updateProgress (jsonToProgressMessage d) state) := by
  refine ⟨rfl, ?_, ?_, ?_⟩
  · unfold wsShouldForward
    rw [Bool.and_eq_true]
    constructor
    · rintro ⟨h1, h2⟩
      refine ⟨h1, ?_⟩
      cases hp : getProp d "progress" with
      | none => rw [hp] at h2; exact absurd h2 (by simp [isNumericProp])
      | some v =>
          cases v with
          | num n => exact ⟨n, rfl⟩
          | null => rw [hp] at h2; exact absurd h2 (by simp [isNumericProp])
          | bool b => rw [hp] at h2; exact absurd h2 (by simp [isNumericProp])
          | str s => rw [hp] at h2; exact absurd h2 (by simp [isNumericProp])
          | arr xs => rw [hp] at h2; exact absurd h2 (by simp [isNumericProp])
          | obj fs => rw [hp] at h2; exact absurd h2 (by simp [isNumericProp])
    · rintro ⟨h1, n, hn⟩
      exact ⟨h1, by rw [hn]; rfl⟩
  · intro h
    simp [handleWsMessage, h]
  · intro h
    simp [handleWsMessage, h]

/-- Witness for the amended C7 at a concrete well-formed payload. -/
theorem handleWsMessage_spec_witness :
    handleWsMessage none [sampleTask] = [sampleTask] ∧
      (wsShouldForward
            (Json.obj [("task_id", Json.str "t1"),
              ("progress", Json.num 55)]) = true ↔
        jsTruthy (getProp
            (Json.obj [("task_id", Json.str "t1"),
              ("progress", Json.num 55)]) "task_id") = true ∧
          ∃ n : Int, getProp
              (Json.obj [("task_id", Json.str "t1"),
                ("progress", Json.num 55)]) "progress" =
            some (Json.num n)) ∧
      (wsShouldForward
            (Json.obj [("task_id", Json.str "t1"),
              ("progress", Json.num 55)]) = false →
        handleWsMessage
            (some (Json.obj [("task_id", Json.str "t1"),
              ("progress", Json.num 55)])) [sampleTask] = [sampleTask]) ∧
      (wsShouldForward
            (Json.obj [("task_id", Json.str "t1"),
              ("progress", Json.num 55)]) = true →
        handleWsMessage
            (some (Json.obj [("task_id", Json.str "t1"),
              ("progress", Json.num 55)])) [sampleTask] =
          updateProgress
            (jsonToProgressMessage
              (Json.obj [("task_id", Json.str "t1"),
                ("progress", Json.num 55)])) [sampleTask]) :=
  handleWsMessage_spec
    (Json.obj [("task_id", Json.str "t1"), ("progress", Json.num 55)])
    [sampleTask]

/-- The whitespace characters trimmed by JS `String.prototype.trim` that
can occur in the inputs considered here. -/
def isJsWhitespace (c : Char) : Bool :=
  c = ' ' || c = '\t' || c = '\n' || c = '\r'

/-- `trim()` on the character list: drop whitespace at both ends. -/
def trimChars (cs : List Char) : List Char :=
  ((cs.dropWhile isJsWhitespace).reverse.dropWhile isJsWhitespace).reverse

/-- JS `s.trim()`. -/
def jsTrim (s : String) : String :=
  String.mk (trimChars s.toList)

/-- `split(sep)` on the character list: the pieces between occurrences of
`sep`, in order, empty pieces kept. -/
def splitOnChar (sep : Char) : List Char → List (List Char)
  | [] => [[]]
  | c :: rest =>
      if c = sep then [] :: splitOnChar sep rest
      else
        match splitOnChar sep rest with
        | [] => [[c]]
        | piece :: pieces => (c :: piece) :: pieces

/-- JS `text.split('\n')`. -/
def jsSplitLines (text : String) : List String :=
  (splitOnChar '\n' text.toList).map String.mk

/-- `needle.isPrefixOf hay` as used below, on characters. -/
def hasPrefixList (needle hay : List Char) : Bool :=
  needle.isPrefixOf hay

/-- JS `hay.includes(needle)`: some suffix of `hay` starts with
`needle`. -/
def hasInfixList (needle : List Char) : List Char → Bool
  | [] => needle.isEmpty
  | c :: rest => hasPrefixList needle (c :: rest) || hasInfixList needle rest

/-- JS `s.includes(pattern)`. -/
def jsIncludes (s pattern : String) : Bool :=
  hasInfixList pattern.toList s.toList

/-- JS `s.startsWith(pattern)`. -/
def jsStartsWith (s pattern : String) : Bool :=
  hasPrefixList pattern.toList s.toList

/-- `validateVideoUrl` from `use-bulk-urls.ts`: reject empty and
all-whitespace strings, then accept exactly the strings that contain
`hanime1.me/watch` or start with `/watch`. -/
def validateVideoUrl (url : String) : Bool :=
  let trimmed := jsTrim url
  if trimmed = "" then false
  else jsIncludes trimmed "hanime1.me/watch" || jsStartsWith trimmed "/watch"

/-- `parseUrls` from `use-bulk-urls.ts`: split on line breaks, trim each
line, drop empty lines. -/
def parseUrls (text : String) : List String :=
  ((jsSplitLines text).map jsTrim).filter fun line => line.length > 0

/-- `validUrls` of `BulkUrlsSection`: the candidates that pass
validation. -/
def validUrlsOf (text : String) : List String :=
  (parseUrls text).filter validateVideoUrl

/-- `invalidUrls` of `BulkUrlsSection`: the candidates that fail
validation; they are shown in the component's error list and never
submitted. -/
def invalidUrlsOf (text : String) : List String :=
  (parseUrls text).filter fun url => !(validateVideoUrl url)

/-- `BulkUrlsRequest` from `use-bulk-urls.ts`. -/
structure BulkUrlsRequest where
  urls : List String
  resolution : String
deriving DecidableEq, Repr

/-- `BulkUrlsResponse` from `use-bulk-urls.ts`. -/
structure BulkUrlsResponse where
  task_ids : List String
  success_count : Nat
  failed_count : Nat
  failed_urls : List String
deriving DecidableEq, Repr

/-- `handleBulkDownload` of `BulkUrlsSection`: when no candidate passed
validation, no request is made (an error toast is shown instead);
otherwise exactly the valid candidates are submitted with the chosen
resolution. -/
def handleBulkDownload (resolution text : String) :
    Option BulkUrlsRequest :=
  if (validUrlsOf text).isEmpty then none
  else some { urls := validUrlsOf text, resolution := resolution }

/-- The outcome reported by `useBulkUrls.onSuccess`: the backend's
`BulkUrlsResponse` verbatim — its `success_count`, `failed_count` and
`failed_urls` are displayed as received, with nothing merged in. -/
def bulkReportedResult (backend : BulkUrlsRequest → BulkUrlsResponse)
    (resolution text : String) : Option BulkUrlsResponse :=
  (handleBulkDownload resolution text).map backend

/-- The backend of the scenario in the claim: it accepts every submitted
URL except those containing `v=2`, which it rejects. -/
def scenarioBackend (req : BulkUrlsRequest) : BulkUrlsResponse :=
  let ok := req.urls.filter fun u => !(jsIncludes u "v=2")
  let bad := req.urls.filter fun u => jsIncludes u "v=2"
  { task_ids := ok
    success_count := ok.length
    failed_count := bad.length
    failed_urls := bad }

/-- `List.isPrefixOf` on characters means an append decomposition. -/
theorem hasPrefixList_iff_append (needle hay : List Char) :
    hasPrefixList needle hay = true ↔ ∃ t, hay = needle ++ t := by
  unfold hasPrefixList
  induction needle generalizing hay with
  | nil => simp [List.isPrefixOf]
  | cons a l ih =>
    cases hay with
    | nil => simp [List.isPrefixOf]
    | cons b m =>
      rw [show (a :: l).isPrefixOf (b :: m) = ((a == b) && l.isPrefixOf m)
        from rfl, Bool.and_eq_true, beq_iff_eq, ih]
      constructor
      · rintro ⟨hab, t, ht⟩
        exact ⟨t, by rw [ht, hab]; rfl⟩
      · rintro ⟨t, ht⟩
        injection ht with h1 h2
        exact ⟨h1.symm, t, h2⟩

/-- `hasInfixList` on characters means a two-sided append
decomposition. -/
theorem hasInfixList_iff_append (needle hay : List Char) :
    hasInfixList needle hay = true ↔ ∃ l r, hay = l ++ needle ++ r := by
  induction hay with
  | nil =>
    simp only [hasInfixList, List.isEmpty_iff]
    constructor
    · rintro rfl
      exact ⟨[], [], rfl⟩
    · rintro ⟨l, r, h⟩
      rcases List.append_eq_nil.mp (List.append_eq_nil.mp h.symm).1 with
        ⟨-, h2⟩
      exact h2
  | cons c rest ih =>
    rw [show hasInfixList needle (c :: rest) =
        (hasPrefixList needle (c :: rest) || hasInfixList needle rest)
      from rfl, Bool.or_eq_true, hasPrefixList_iff_append, ih]
    constructor
    · rintro (⟨t, ht⟩ | ⟨l, r, hlr⟩)
      · exact ⟨[], t, by simp [ht]⟩
      · exact ⟨c :: l, r, by simp [hlr]⟩
    · rintro ⟨l, r, h⟩
      cases l with
      | nil => exact Or.inl ⟨r, by simpa using h⟩
      | cons x l2 =>
        injection h with h1 h2
        exact Or.inr ⟨l2, r, h2⟩

/-- C8: `validateVideoUrl` accepts a candidate exactly when its trimmed
form is non-empty and either contains the substring `hanime1.me/watch` or
begins with `/watch` — a purely structural test; the candidates are
partitioned into the valid and invalid sets by that predicate, and any
submitted request carries exactly the valid set, so a rejected candidate
is never submitted. -/
theorem validateVideoUrl_structural (url text : String) :
    (validateVideoUrl url = true ↔
      jsTrim url ≠ "" ∧
        ((∃ l r, (jsTrim url).toList =
            l ++ ("hanime1.me/watch" : String).toList ++ r) ∨
          ∃ t, (jsTrim url).toList = ("/watch" : String).toList ++ t)) ∧
      (∀ u, u ∈ validUrlsOf text ↔
        u ∈ parseUrls text ∧ validateVideoUrl u = true) ∧
      (∀ u, u ∈ invalidUrlsOf text ↔
        u ∈ parseUrls text ∧ validateVideoUrl u = false) ∧
      (∀ resolution req, handleBulkDownload resolution text = some req →
        req.urls = validUrlsOf text) := by
  refine ⟨?_, ?_, ?_, ?_⟩
  · unfold validateVideoUrl
    by_cases h : jsTrim url = ""
    · simp [h]
    · rw [if_neg h, Bool.or_eq_true]
      unfold jsIncludes jsStartsWith
      rw [hasInfixList_iff_append, hasPrefixList_iff_append]
      constructor
      · rintro (⟨l, r, hlr⟩ | ⟨t, ht⟩)
        · exact ⟨h, Or.inl ⟨l, r, hlr⟩⟩
        · exact ⟨h, Or.inr ⟨t, ht⟩⟩
      · rintro ⟨-, (⟨l, r, hlr⟩ | ⟨t, ht⟩)⟩
        · exact Or.inl ⟨l, r, hlr⟩
        · exact Or.inr ⟨t, ht⟩
  · intro u
    unfold validUrlsOf
    rw [List.mem_filter]
  · intro u
    unfold invalidUrlsOf
    rw [List.mem_filter]
    simp
  · intro resolution req h
    unfold handleBulkDownload at h
    by_cases he : (validUrlsOf text).isEmpty
    · rw [if_pos he] at h
      exact absurd h (by simp)
    · rw [if_neg he] at h
      injection h with h2
      rw [← h2]

/-- Witness for C8 at a concrete candidate and input text. -/
theorem validateVideoUrl_structural_witness :
    (validateVideoUrl "https://hanime1.me/watch?v=9" = true ↔
      jsTrim "https://hanime1.me/watch?v=9" ≠ "" ∧
        ((∃ l r, (jsTrim "https://hanime1.me/watch?v=9").toList =
            l ++ ("hanime1.me/watch" : String).toList ++ r) ∨
          ∃ t, (jsTrim "https://hanime1.me/watch?v=9").toList =
            ("/watch" : String).toList ++ t)) ∧
      (∀ u, u ∈ validUrlsOf "https://hanime1.me/watch?v=9\nnope" ↔
        u ∈ parseUrls "https://hanime1.me/watch?v=9\nnope" ∧
          validateVideoUrl u = true) ∧
      (∀ u, u ∈ invalidUrlsOf "https://hanime1.me/watch?v=9\nnope" ↔
        u ∈ parseUrls "https://hanime1.me/watch?v=9\nnope" ∧
          validateVideoUrl u = false) ∧
      (∀ resolution req,
        handleBulkDownload resolution
            "https://hanime1.me/watch?v=9\nnope" = some req →
        req.urls = validUrlsOf "https://hanime1.me/watch?v=9\nnope") :=
  validateVideoUrl_structural "https://hanime1.me/watch?v=9"
    "https://hanime1.me/watch?v=9\nnope"

/-- The claim's literal bulk input. -/
def claimBulkInput : String :=
  "https://site/watch?v=1\nnot-a-url\nhttps://site/watch?v=2"

/-- The same scenario with URLs of the shape the validator accepts. -/
def amendedBulkInput : String :=
  "https://hanime1.me/watch?v=1\nnot-a-url\nhttps://hanime1.me/watch?v=2"

/-- C4 counterexample: on the claim's input every candidate fails
validation — `https://site/watch?v=1` lacks `hanime1.me/watch` and does
not start with `/watch` — so nothing is submitted and no result is
reported at all, let alone `success_count=1, failed_count=2`. -/
theorem bulk_report_counterexample :
    validateVideoUrl "https://site/watch?v=1" = false ∧
      validUrlsOf claimBulkInput = [] ∧
      bulkReportedResult scenarioBackend "720p" claimBulkInput = none := by
  refine ⟨by decide, by decide, ?_⟩
  have h : validUrlsOf claimBulkInput = [] := by decide
  unfold bulkReportedResult handleBulkDownload
  rw [h]
  rfl

/-- C4 amended: on the hanime1-shaped input the candidates partition into
`valid = [watch?v=1, watch?v=2]` and `invalid = [not-a-url]`; only the
valid set is submitted, and the reported result is the backend's response
verbatim — with the backend accepting `v=1` and rejecting `v=2` that is
`success_count = 1`, `failed_count = 1`,
`failed_urls = [".../watch?v=2"]`; the pre-validation failure
`not-a-url` stays in the component's invalid list and is not merged into
the reported counts. -/
theorem bulk_report_amended :
    validUrlsOf amendedBulkInput =
        ["https://hanime1.me/watch?v=1", "https://hanime1.me/watch?v=2"] ∧
      invalidUrlsOf amendedBulkInput = ["not-a-url"] ∧
      bulkReportedResult scenarioBackend "720p" amendedBulkInput =
        some { task_ids := ["https://hanime1.me/watch?v=1"]
               success_count := 1
               failed_count := 1
               failed_urls := ["https://hanime1.me/watch?v=2"] } := by
  refine ⟨by decide, by decide, by decide⟩
